import Mathlib

/-!
Verification of the `cleanuphttp` package (Go): a lifecycle manager that
runs an HTTP server, waits for a termination signal or server exit, drains
a pre-shutdown stack of cleanup routines, performs a bounded `Shutdown`,
and drains a post-shutdown stack via a deferred call.

The embedding follows `src/cleanuphttp.go`.  Callback functions and their
`interface\x7b\x7d` arguments are modelled by abstract identifier types `R` and `A`;
invoking a routine is an observable event in a trace.  The mutex inside
`routineStack` serializes push/pop, so data operations are modelled as pure
functions on the state; concurrency (the gate trigger race) is modelled as
an arbitrary serialization of atomic trigger steps.
-/

namespace Cleanuphttp

/-- Go `cleanupRoutine` (cleanuphttp.go:203-206): a pair of a routine and its
argument. -/
structure cleanupRoutine (R A : Type) where
  routine : R
  arg : A
deriving DecidableEq, Repr

/-- Go `routineStack` (cleanuphttp.go:208-211): a slice of routines; the mutex
drops out of the pure model because it only serializes access. -/
structure routineStack (R A : Type) where
  routines : List (cleanupRoutine R A)
deriving DecidableEq, Repr

variable {R A : Type}

/-- Go `routineStack.push` (cleanuphttp.go:219-224): Go `append` puts the new
element at the end of the slice (the logical top). -/
def routineStack.push (s : routineStack R A) (r : cleanupRoutine R A) :
    routineStack R A :=
  ⟨s.routines ++ [r]⟩

/-- Go `routineStack.pop` (cleanuphttp.go:226-239): if the slice is empty,
return `(cleanupRoutine\x7b\x7d, false)` (modelled `none`) and leave the slice
untouched; otherwise return the last element and truncate the slice by one. -/
def routineStack.pop (s : routineStack R A) :
    Option (cleanupRoutine R A) × routineStack R A :=
  match s.routines.getLast? with
  | none => (none, s)
  | some r => (some r, ⟨s.routines.dropLast⟩)

/-- Go `routineStack.len` (cleanuphttp.go:213-217). -/
def routineStack.len (s : routineStack R A) : Nat :=
  s.routines.length

/-- The pop loop of `CleanupHTTP.cleanup` (cleanuphttp.go:155-165): pop until
empty, collecting the routines in invocation order, and return the final
stack.  Note that it calls `routineStack.pop` directly, never consulting the
`closing` flag. -/
def cleanupLoop (s : routineStack R A) :
    List (cleanupRoutine R A) × routineStack R A :=
  match h : s.pop with
  | (some r, s') =>
      let p := cleanupLoop s'
      (r :: p.1, p.2)
  | (none, _) => ([], s)
termination_by s.routines.length
decreasing_by
  unfold routineStack.pop at h
  cases hg : s.routines.getLast? with
  | none => rw [hg] at h; exact absurd h (by simp)
  | some r'' =>
      rw [hg] at h
      have hne : s.routines ≠ [] := by
        intro he
        rw [he] at hg
        simp at hg
      have hs : s' = ⟨s.routines.dropLast⟩ := (Prod.mk.injEq _ _ _ _ ▸ h).2.symm
      subst hs
      have hlen : s.routines.dropLast.length = s.routines.length - 1 :=
        List.length_dropLast s.routines
      have hpos : 0 < s.routines.length := List.length_pos.mpr hne
      simp only [hlen]
      omega

/-- Selector for the two stacks of a `CleanupHTTP` (the Go code passes a
pointer to `c.preRoutines` or `c.postRoutines`). -/
inductive StackSel where
  | pre
  | post
deriving DecidableEq, Repr

/-- Go `CleanupHTTP` (cleanuphttp.go:24-31).  `Server *http.Server` is an abstract
handle, modelled by a `Nat` identifier; `closing` is an `int32` used only
with values 0 and 1. -/
structure CleanupHTTP (R A : Type) where
  Server : Nat
  preRoutines : routineStack R A
  postRoutines : routineStack R A
  closing : Int
  interrupted : Bool
deriving DecidableEq, Repr

def CleanupHTTP.getStack (c : CleanupHTTP R A) : StackSel → routineStack R A
  | .pre => c.preRoutines
  | .post => c.postRoutines

def CleanupHTTP.setStack (c : CleanupHTTP R A) :
    StackSel → routineStack R A → CleanupHTTP R A
  | .pre, s => { c with preRoutines := s }
  | .post, s => { c with postRoutines := s }

/-- Go `CleanupHTTP.isClosed` (cleanuphttp.go:167-169). -/
def CleanupHTTP.isClosed (c : CleanupHTTP R A) : Bool :=
  c.closing != 0

/-- Go `CleanupHTTP.cleanupPush` (cleanuphttp.go:101-112): a logged no-op when
closed, otherwise pushes the pair onto the selected stack. -/
def CleanupHTTP.cleanupPush (c : CleanupHTTP R A) (sel : StackSel)
    (routine : R) (arg : A) : CleanupHTTP R A :=
  if c.isClosed then c
  else c.setStack sel ((c.getStack sel).push ⟨routine, arg⟩)

/-- Go `CleanupHTTP.cleanupPop` (cleanuphttp.go:114-127): returns
`(nil, nil, false)` (modelled `none`) without touching the stack when
closed or when the stack is empty; otherwise pops the top pair. -/
def CleanupHTTP.cleanupPop (c : CleanupHTTP R A) (sel : StackSel) :
    Option (R × A) × CleanupHTTP R A :=
  if c.isClosed then (none, c)
  else
    match (c.getStack sel).pop with
    | (some r, s') => (some (r.routine, r.arg), c.setStack sel s')
    | (none, _) => (none, c)

/-- Go `CleanupHTTP.PreCleanupPush` (cleanuphttp.go:78-80). -/
def CleanupHTTP.PreCleanupPush (c : CleanupHTTP R A) (routine : R) (arg : A) :
    CleanupHTTP R A :=
  c.cleanupPush .pre routine arg

/-- Go `CleanupHTTP.PreCleanupPop` (cleanuphttp.go:84-86). -/
def CleanupHTTP.PreCleanupPop (c : CleanupHTTP R A) :
    Option (R × A) × CleanupHTTP R A :=
  c.cleanupPop .pre

/-- Go `CleanupHTTP.PostCleanupPush` (cleanuphttp.go:91-93). -/
def CleanupHTTP.PostCleanupPush (c : CleanupHTTP R A) (routine : R) (arg : A) :
    CleanupHTTP R A :=
  c.cleanupPush .post routine arg

/-- Go `CleanupHTTP.PostCleanupPop` (cleanuphttp.go:97-99). -/
def CleanupHTTP.PostCleanupPop (c : CleanupHTTP R A) :
    Option (R × A) × CleanupHTTP R A :=
  c.cleanupPop .post

/-- The cancellation context handed to `Server.Shutdown`
(cleanuphttp.go:55-68): either deadline-bound or `context.Background()`. -/
inductive ShutdownCtx where
  | withTimeout (d : Int)
  | background
deriving DecidableEq, Repr

/-- Context selection in `Serve` (cleanuphttp.go:60-68): `timeout` is a Go
`time.Duration` (an `int64`), compared with `> 0`. -/
def shutdownContext (timeout : Int) : ShutdownCtx :=
  if 0 < timeout then ShutdownCtx.withTimeout timeout else ShutdownCtx.background

/-- Observable events of the post-wake phase of `Serve`. -/
inductive Event (R A : Type) where
  /-- a cleanup routine is invoked with its argument and runs to completion
  (invocation is synchronous, cleanuphttp.go:160) -/
  | invoke (routine : R) (arg : A)
  /-- the call `c.Server.Shutdown(ctx)` happens (cleanuphttp.go:70) -/
  | shutdownBegin (ctx : ShutdownCtx)
  /-- the `Shutdown` call returns; `failed` records whether it returned a
  non-nil error -/
  | shutdownEnd (failed : Bool)
  /-- the error log on a failed shutdown (cleanuphttp.go:71) -/
  | logShutdownFailed
  /-- the deferred `cancel()` of the timeout context runs (cleanuphttp.go:65) -/
  | ctxCancel
  /-- the method `Serve` returns to its caller -/
  | serveReturn
deriving DecidableEq, Repr

def Event.isInvoke : Event R A → Bool
  | .invoke _ _ => true
  | _ => false

def Event.isShutdownBegin : Event R A → Bool
  | .shutdownBegin _ => true
  | _ => false

def Event.isServeReturn : Event R A → Bool
  | .serveReturn => true
  | _ => false

/-- Go `CleanupHTTP.cleanup` (cleanuphttp.go:155-165): drain the selected stack
via `routineStack.pop`, invoking each popped routine.  Returns the invoke
events in order together with the updated state. -/
def CleanupHTTP.cleanup (c : CleanupHTTP R A) (sel : StackSel) :
    List (Event R A) × CleanupHTTP R A :=
  let p := cleanupLoop (c.getStack sel)
  (p.1.map (fun r => Event.invoke r.routine r.arg), c.setStack sel p.2)

/-- Go `CleanupHTTP.preCleanup` (cleanuphttp.go:147-149). -/
def CleanupHTTP.preCleanup (c : CleanupHTTP R A) :
    List (Event R A) × CleanupHTTP R A :=
  c.cleanup .pre

/-- Go `CleanupHTTP.postCleanup` (cleanuphttp.go:151-153). -/
def CleanupHTTP.postCleanup (c : CleanupHTTP R A) :
    List (Event R A) × CleanupHTTP R A :=
  c.cleanup .post

/-- The actions `Serve` registers with `defer`. -/
inductive Deferred where
  /-- the statement `defer c.postCleanup()` (cleanuphttp.go:53) -/
  | postCleanupD
  /-- the statement `defer cancel()` (cleanuphttp.go:65) -/
  | cancelD
deriving DecidableEq, Repr

def runDeferredOne (c : CleanupHTTP R A) :
    Deferred → List (Event R A) × CleanupHTTP R A
  | .postCleanupD => c.postCleanup
  | .cancelD => ([Event.ctxCancel], c)

def runDeferreds (c : CleanupHTTP R A) :
    List Deferred → List (Event R A) × CleanupHTTP R A
  | [] => ([], c)
  | d :: ds =>
      let p := runDeferredOne c d
      let q := runDeferreds p.2 ds
      (p.1 ++ q.1, q.2)

/-- The body of `Serve` after `<-quit` unblocks (cleanuphttp.go:51-73):
pre-cleanup, registration of the deferred post-cleanup, context selection
(registering the deferred `cancel` when a timeout context is created), the
`Shutdown` call whose outcome is the environment-chosen `shutdownFailed`,
the error log, and finally the deferred actions in reverse registration
order before `Serve` returns.  `Serve` never writes `closing`. -/
def serveAfterWake (c : CleanupHTTP R A) (timeout : Int)
    (shutdownFailed : Bool) : List (Event R A) × CleanupHTTP R A :=
  let pre := c.preCleanup
  let defers : List Deferred := [Deferred.postCleanupD]
  let ctxDefers : ShutdownCtx × List Deferred :=
    if 0 < timeout then (ShutdownCtx.withTimeout timeout, defers ++ [Deferred.cancelD])
    else (ShutdownCtx.background, defers)
  let shutdownEvents :=
    Event.shutdownBegin ctxDefers.1 :: Event.shutdownEnd shutdownFailed ::
      (if shutdownFailed then [Event.logShutdownFailed] else [])
  let fin := runDeferreds pre.2 ctxDefers.2.reverse
  (pre.1 ++ shutdownEvents ++ fin.1 ++ [Event.serveReturn], fin.2)

/-- System state for one `Serve` run: the shared `CleanupHTTP` fields plus a
counter of how many times `close(quit)` has executed (a Go channel may be
closed at most once; the counter lets the single-close property be stated). -/
structure ServeState (R A : Type) where
  http : CleanupHTTP R A
  quitCloses : Nat
deriving DecidableEq, Repr

/-- One trigger attempt, the block at cleanuphttp.go:46-48 (also 141-143):
`atomic.CompareAndSwapInt32(&c.closing, 0, 1)` and, on success,
`close(quit)`.  The CAS is atomic, and only the winner runs `close`, so a
concurrent execution is equivalent to some serialization of these steps.
Returns the new state and whether this attempt won the CAS. -/
def attemptTrigger (s : ServeState R A) : ServeState R A × Bool :=
  if s.http.closing = 0 then
    ({ http := { s.http with closing := 1 }, quitCloses := s.quitCloses + 1 }, true)
  else (s, false)

/-- One iteration of the `handleSignal` loop body (cleanuphttp.go:129-145)
for a delivered signal: skip if a signal was already seen, set
`interrupted`, skip if already closed, otherwise attempt the CAS/close. -/
def signalStep (s : ServeState R A) : ServeState R A × Bool :=
  if s.http.interrupted then (s, false)
  else
    let s' : ServeState R A := { s with http := { s.http with interrupted := true } }
    if s'.http.isClosed then (s', false)
    else attemptTrigger s'

/-- The two sources that can trigger the gate during one `Serve` run. -/
inductive Trigger where
  /-- the serving goroutine exits `ListenAndServe` (cleanuphttp.go:41-49) -/
  | serviceExit
  /-- a termination signal is delivered to `handleSignal` -/
  | signal
deriving DecidableEq, Repr

def runTrigger (s : ServeState R A) : Trigger → ServeState R A × Bool
  | .serviceExit => attemptTrigger s
  | .signal => signalStep s

/-- Run a serialized sequence of trigger attempts, counting the winners. -/
def runTriggers (s : ServeState R A) : List Trigger → ServeState R A × Nat
  | [] => (s, 0)
  | t :: ts =>
      let p := runTrigger s t
      let q := runTriggers p.1 ts
      (q.1, (if p.2 then 1 else 0) + q.2)

/-- Every operation of the package that touches the shared mutable state of a `CleanupHTTP`
state. -/
inductive Op (R A : Type) where
  | push (sel : StackSel) (routine : R) (arg : A)
  | pop (sel : StackSel)
  | serviceExit
  | signal
  | serveWake (timeout : Int) (shutdownFailed : Bool)

def applyOp (s : ServeState R A) : Op R A → ServeState R A
  | .push sel r a => { s with http := s.http.cleanupPush sel r a }
  | .pop sel => { s with http := (s.http.cleanupPop sel).2 }
  | .serviceExit => (attemptTrigger s).1
  | .signal => (signalStep s).1
  | .serveWake tm f => { s with http := (serveAfterWake s.http tm f).2 }

def applyOps (s : ServeState R A) (ops : List (Op R A)) : ServeState R A :=
  ops.foldl applyOp s

/-- Shorthand for the invoke event of one routine. -/
def invokeEvent (r : cleanupRoutine R A) : Event R A :=
  Event.invoke r.routine r.arg

/-- Concrete closed instance used to witness the rejection theorems. -/
def cClosed : CleanupHTTP Nat Nat :=
  { Server := 0
    preRoutines := ⟨[⟨1, 10⟩]⟩
    postRoutines := ⟨[⟨2, 20⟩]⟩
    closing := 1
    interrupted := false }

/-- Concrete fresh state used to witness the trigger theorems. -/
def sFresh : ServeState Nat Nat :=
  { http := { Server := 0, preRoutines := ⟨[]⟩, postRoutines := ⟨[]⟩, closing := 0, interrupted := false }
    quitCloses := 0 }

/-- Go `CleanupHTTP.Serve` in full (cleanuphttp.go:34-73): each call makes a
fresh `quit` channel and spawns the signal handler and the serving
goroutine; `ts` is the serialized sequence of trigger attempts those
goroutines make during the call.  The call blocks at `<-quit`
(cleanuphttp.go:51): if no attempt closes `quit` the call never returns,
modelled `none`; otherwise the post-wake body runs on the state the
triggers left. -/
def ServeFull (c : CleanupHTTP R A) (timeout : Int) (ts : List Trigger)
    (shutdownFailed : Bool) : Option (List (Event R A) × CleanupHTTP R A) :=
  let run := runTriggers { http := c, quitCloses := 0 } ts
  if run.1.quitCloses = 0 then none
  else some (serveAfterWake run.1.http timeout shutdownFailed)

/-- The package-level `Serve` (cleanuphttp.go:172-175): it assigns
`DefaultCleanupHTTP.Server = server` and forwards to the method on the
default instance `d`; nothing else of `d` is reset, and the forwarded call
includes the blocking wait at `<-quit`. -/
def pkgServe (d : CleanupHTTP R A) (server : Nat) (timeout : Int)
    (ts : List Trigger) (shutdownFailed : Bool) :
    Option (List (Event R A) × CleanupHTTP R A) :=
  ServeFull { d with Server := server } timeout ts shutdownFailed

/-- Fresh default instance with one routine registered on each stack before
its first run. -/
def dStart : CleanupHTTP Nat Nat :=
  { Server := 0
    preRoutines := ⟨[⟨1, 10⟩]⟩
    postRoutines := ⟨[⟨2, 20⟩]⟩
    closing := 0
    interrupted := false }

/-- The state of the default instance after its first run completes: both
stacks drained, `closing` permanently 1. -/
def dAfterFirst : CleanupHTTP Nat Nat :=
  { Server := 0
    preRoutines := ⟨[]⟩
    postRoutines := ⟨[]⟩
    closing := 1
    interrupted := false }

/-- `dAfterFirst` with one action left un-popped from the first run (landed
through the window between the `isClosed` check of `cleanupPush` and the
winning CAS). -/
def dLeftover : CleanupHTTP Nat Nat :=
  { dAfterFirst with preRoutines := ⟨[⟨9, 90⟩]⟩ }

theorem cleanupLoop_nil : cleanupLoop (⟨[]⟩ : routineStack R A) = ([], ⟨[]⟩) := by
  unfold cleanupLoop
  simp [routineStack.pop]

theorem pop_concat (l : List (cleanupRoutine R A)) (r : cleanupRoutine R A) :
    (routineStack.pop ⟨l ++ [r]⟩ : _) = (some r, ⟨l⟩) := by
  simp [routineStack.pop, List.getLast?_concat, List.dropLast_concat]

theorem cleanupLoop_concat (l : List (cleanupRoutine R A))
    (r : cleanupRoutine R A) :
    cleanupLoop ⟨l ++ [r]⟩
      = (r :: (cleanupLoop ⟨l⟩).1, (cleanupLoop ⟨l⟩).2) := by
  rw [cleanupLoop]
  split
  case _ r' s' h =>
      rw [pop_concat] at h
      cases h
      rfl
  case _ h =>
      rw [pop_concat] at h
      cases h

/-- Draining a stack pops every element, in reverse push order, and leaves
the stack empty. -/
theorem cleanupLoop_spec (l : List (cleanupRoutine R A)) :
    cleanupLoop ⟨l⟩ = (l.reverse, ⟨[]⟩) := by
  induction l using List.reverseRecOn with
  | nil => exact cleanupLoop_nil
  | append_singleton l r ih =>
      rw [cleanupLoop_concat, ih]
      simp

theorem cleanupLoop_drain (s : routineStack R A) :
    cleanupLoop s = (s.routines.reverse, ⟨[]⟩) := by
  cases s with
  | mk l => exact cleanupLoop_spec l

/-- Full decomposition of the post-wake phase of `Serve`: the trace is the
pre-stack drained in reverse push order, then the `Shutdown` call with the
context selected from `timeout` and its outcome, then the failure log if
any, then the deferred `cancel` if a timeout context was created, then the
post-stack drained in reverse push order by the deferred post-cleanup, then
the return of `Serve`; the final state has both stacks empty and every
other field unchanged. -/
theorem serveAfterWake_eq (c : CleanupHTTP R A) (tm : Int) (f : Bool) :
    serveAfterWake c tm f =
      (c.preRoutines.routines.reverse.map invokeEvent
        ++ Event.shutdownBegin (shutdownContext tm)
        :: Event.shutdownEnd f
        :: ((if f then [Event.logShutdownFailed] else [])
            ++ (if 0 < tm then [Event.ctxCancel] else [])
            ++ c.postRoutines.routines.reverse.map invokeEvent
            ++ [Event.serveReturn]),
       { c with preRoutines := ⟨[]⟩, postRoutines := ⟨[]⟩ }) := by
  by_cases htm : 0 < tm <;>
    · simp [serveAfterWake, CleanupHTTP.preCleanup, CleanupHTTP.postCleanup,
        CleanupHTTP.cleanup, CleanupHTTP.getStack, CleanupHTTP.setStack,
        cleanupLoop_drain, runDeferreds, runDeferredOne, shutdownContext,
        invokeEvent, htm]
      rfl

theorem attemptTrigger_closed {s : ServeState R A} (h : s.http.closing ≠ 0) :
    attemptTrigger s = (s, false) := by
  simp [attemptTrigger, h]

theorem attemptTrigger_open {s : ServeState R A} (h : s.http.closing = 0) :
    attemptTrigger s
      = ({ http := { s.http with closing := 1 },
           quitCloses := s.quitCloses + 1 }, true) := by
  simp [attemptTrigger, h]

theorem runTrigger_closed {s : ServeState R A} (t : Trigger)
    (h : s.http.closing ≠ 0) :
    (runTrigger s t).2 = false
      ∧ (runTrigger s t).1.http.closing = s.http.closing
      ∧ (runTrigger s t).1.quitCloses = s.quitCloses := by
  cases t with
  | serviceExit => simp [runTrigger, attemptTrigger_closed h]
  | signal =>
      unfold runTrigger signalStep
      by_cases hi : s.http.interrupted
      · simp [hi]
      · simp [hi, CleanupHTTP.isClosed, h]

theorem runTriggers_closed {s : ServeState R A} (ts : List Trigger)
    (h : s.http.closing ≠ 0) :
    (runTriggers s ts).2 = 0
      ∧ (runTriggers s ts).1.http.closing = s.http.closing
      ∧ (runTriggers s ts).1.quitCloses = s.quitCloses := by
  induction ts generalizing s with
  | nil => simp [runTriggers]
  | cons t ts ih =>
      obtain ⟨h1, h2, h3⟩ := runTrigger_closed (s := s) t h
      have hcl : (runTrigger s t).1.http.closing ≠ 0 := by rw [h2]; exact h
      obtain ⟨g1, g2, g3⟩ := ih hcl
      simp [runTriggers, h1, g1, g2, g3, h2, h3]

theorem foldl_push_routines (l : List (cleanupRoutine R A))
    (s : routineStack R A) :
    l.foldl routineStack.push s = ⟨s.routines ++ l⟩ := by
  induction l generalizing s with
  | nil => cases s; simp
  | cons r l ih =>
      rw [List.foldl_cons, ih]
      simp [routineStack.push]

theorem isClosed_iff (c : CleanupHTTP R A) :
    c.isClosed = true ↔ c.closing ≠ 0 := by
  simp [CleanupHTTP.isClosed]

/-- From a fresh gate (flag 0, no signal seen yet) any single trigger
attempt, from either source, wins the CAS and closes `quit`. -/
theorem runTrigger_fresh {s : ServeState R A} (t : Trigger)
    (h0 : s.http.closing = 0) (hi : s.http.interrupted = false) :
    (runTrigger s t).2 = true
      ∧ (runTrigger s t).1.http.closing = 1
      ∧ (runTrigger s t).1.quitCloses = s.quitCloses + 1 := by
  cases t with
  | serviceExit => simp [runTrigger, attemptTrigger_open h0]
  | signal =>
      simp [runTrigger, signalStep, hi, CleanupHTTP.isClosed, h0, attemptTrigger]

theorem cleanupPush_closed {c : CleanupHTTP R A} (sel : StackSel) (r : R)
    (a : A) (h : c.isClosed = true) :
    c.cleanupPush sel r a = c := by
  simp [CleanupHTTP.cleanupPush, h]

theorem cleanupPop_closed {c : CleanupHTTP R A} (sel : StackSel)
    (h : c.isClosed = true) :
    c.cleanupPop sel = (none, c) := by
  simp [CleanupHTTP.cleanupPop, h]

theorem applyOp_closing {s : ServeState R A} (op : Op R A)
    (h : s.http.isClosed = true) :
    (applyOp s op).http.closing = s.http.closing := by
  cases op with
  | push sel r a => simp [applyOp, cleanupPush_closed sel r a h]
  | pop sel => simp [applyOp, cleanupPop_closed sel h]
  | serviceExit =>
      rw [applyOp, attemptTrigger_closed ((isClosed_iff s.http).mp h)]
  | signal =>
      have hc : s.http.closing ≠ 0 := (isClosed_iff s.http).mp h
      by_cases hi : s.http.interrupted <;>
        simp [applyOp, signalStep, hi, CleanupHTTP.isClosed, hc]
  | serveWake tm f =>
      rw [applyOp]
      have := serveAfterWake_eq s.http tm f
      rw [this]

theorem applyOps_closed {s : ServeState R A} (ops : List (Op R A))
    (h : s.http.isClosed = true) :
    (applyOps s ops).http.isClosed = true := by
  induction ops generalizing s with
  | nil => exact h
  | cons op ops ih =>
      have h1 : (applyOp s op).http.closing = s.http.closing :=
        applyOp_closing op h
      have h2 : (applyOp s op).http.isClosed = true := by
        rw [isClosed_iff, h1]
        exact (isClosed_iff s.http).mp h
      exact ih h2

/-- C2: pushing `a1, …, an` onto one `routineStack` with no interleaved
pops and then draining it (the pop loop of `cleanup`) returns exactly
`an, …, a1`, and `pop` always returns the most recently pushed
not-yet-popped routine, removing it. -/
theorem actionStack_lifo :
    (∀ (l : List (cleanupRoutine R A)),
        (cleanupLoop (l.foldl routineStack.push ⟨[]⟩)).1 = l.reverse)
    ∧ (∀ (s : routineStack R A) (r : cleanupRoutine R A),
        (s.push r).pop = (some r, s)) := by
  constructor
  · intro l
    rw [foldl_push_routines, cleanupLoop_spec]
    simp
  · intro s r
    show routineStack.pop ⟨s.routines ++ [r]⟩ = (some r, s)
    rw [pop_concat]

/-- C4: once the `closing` flag is set, `PreCleanupPush`/`PostCleanupPush`
leave the state unchanged (a logged no-op) and `PreCleanupPop`/
`PostCleanupPop` return `(nil, nil, false)` without mutating the stack. -/
theorem push_pop_rejected_after_close (c : CleanupHTTP R A) (r : R) (a : A)
    (h : c.isClosed = true) :
    c.PreCleanupPush r a = c ∧ c.PostCleanupPush r a = c
      ∧ c.PreCleanupPop = (none, c) ∧ c.PostCleanupPop = (none, c) := by
  refine ⟨?_, ?_, ?_, ?_⟩ <;>
    simp [CleanupHTTP.PreCleanupPush, CleanupHTTP.PostCleanupPush,
      CleanupHTTP.PreCleanupPop, CleanupHTTP.PostCleanupPop,
      cleanupPush_closed _ r a h, cleanupPop_closed _ h]

theorem push_pop_rejected_after_close_witness :
    cClosed.PreCleanupPush 7 70 = cClosed
      ∧ cClosed.PostCleanupPush 7 70 = cClosed
      ∧ cClosed.PreCleanupPop = (none, cClosed)
      ∧ cClosed.PostCleanupPop = (none, cClosed) :=
  push_pop_rejected_after_close cClosed 7 70 (by decide)

/-- C1: in any `Serve` run, the trace first invokes (to completion) every
action popped from the pre-shutdown stack, then calls `Server.Shutdown`,
then its outcome is determined, and only afterwards — with no further
invocation in between — come the invocations of the post-shutdown stack. -/
theorem serve_pre_before_stop_before_post (c : CleanupHTTP R A) (tm : Int)
    (f : Bool) :
    ∃ mid, (serveAfterWake c tm f).1
        = (cleanupLoop c.preRoutines).1.map invokeEvent
          ++ Event.shutdownBegin (shutdownContext tm)
          :: Event.shutdownEnd f
          :: (mid ++ (cleanupLoop c.postRoutines).1.map invokeEvent
              ++ [Event.serveReturn])
      ∧ ∀ e ∈ mid, e.isInvoke = false := by
  refine ⟨(if f then [Event.logShutdownFailed] else [])
    ++ (if 0 < tm then [Event.ctxCancel] else []), ?_, ?_⟩
  · rw [serveAfterWake_eq, cleanupLoop_drain, cleanupLoop_drain]
  · intro e he
    rcases List.mem_append.mp he with hm | hm
    · by_cases hb : f = true
      · simp [hb] at hm
        subst hm
        rfl
      · simp [hb] at hm
    · by_cases ht : 0 < tm
      · simp [ht] at hm
        subst hm
        rfl
      · simp [ht] at hm

theorem serve_pre_before_stop_before_post_witness :
    ∃ mid, (serveAfterWake cClosed 2 true).1
        = (cleanupLoop cClosed.preRoutines).1.map invokeEvent
          ++ Event.shutdownBegin (shutdownContext 2)
          :: Event.shutdownEnd true
          :: (mid ++ (cleanupLoop cClosed.postRoutines).1.map invokeEvent
              ++ [Event.serveReturn])
      ∧ ∀ e ∈ mid, e.isInvoke = false :=
  serve_pre_before_stop_before_post cClosed 2 true

/-- C5: whatever the outcome of the `Shutdown` call (`f` ranges over both
success and failure), the trace of a `Serve` run ends with the complete
LIFO drain of the post-shutdown stack followed by the return of `Serve`,
and the post-shutdown stack is empty afterwards. -/
theorem post_drain_runs_regardless (c : CleanupHTTP R A) (tm : Int)
    (f : Bool) :
    ∃ p, (serveAfterWake c tm f).1
        = p ++ c.postRoutines.routines.reverse.map invokeEvent
          ++ [Event.serveReturn]
      ∧ (serveAfterWake c tm f).2.postRoutines.routines = [] := by
  refine ⟨c.preRoutines.routines.reverse.map invokeEvent
    ++ Event.shutdownBegin (shutdownContext tm)
    :: Event.shutdownEnd f
    :: ((if f then [Event.logShutdownFailed] else [])
        ++ (if 0 < tm then [Event.ctxCancel] else [])), ?_, ?_⟩
  · rw [serveAfterWake_eq]
    simp
  · rw [serveAfterWake_eq]

theorem countP_isShutdownBegin_invokes (l : List (cleanupRoutine R A)) :
    List.countP (Event.isShutdownBegin ∘ invokeEvent) l = 0 := by
  induction l with
  | nil => rfl
  | cons r l ih => simp [List.countP_cons, ih, invokeEvent, Event.isShutdownBegin]

theorem countP_isServeReturn_invokes (l : List (cleanupRoutine R A)) :
    List.countP (Event.isServeReturn ∘ invokeEvent) l = 0 := by
  induction l with
  | nil => rfl
  | cons r l ih => simp [List.countP_cons, ih, invokeEvent, Event.isServeReturn]

/-- C6: the `Shutdown` call of a `Serve` run receives exactly one context:
deadline-bound with exactly the given duration when `timeout > 0`, and the
unbounded background context for any non-positive `timeout`. -/
theorem shutdown_ctx_matches_timeout (c : CleanupHTTP R A) (tm : Int)
    (f : Bool) :
    ∃ p q, (serveAfterWake c tm f).1
        = p ++ Event.shutdownBegin
            (if 0 < tm then ShutdownCtx.withTimeout tm
             else ShutdownCtx.background) :: q
      ∧ (serveAfterWake c tm f).1.countP Event.isShutdownBegin = 1 := by
  refine ⟨c.preRoutines.routines.reverse.map invokeEvent,
    Event.shutdownEnd f
      :: ((if f then [Event.logShutdownFailed] else [])
          ++ (if 0 < tm then [Event.ctxCancel] else [])
          ++ c.postRoutines.routines.reverse.map invokeEvent
          ++ [Event.serveReturn]), ?_, ?_⟩
  · rw [serveAfterWake_eq]
    rfl
  · rw [serveAfterWake_eq]
    by_cases hb : f = true <;> by_cases ht : 0 < tm <;>
      simp [hb, ht, List.countP_append, List.countP_cons,
        countP_isShutdownBegin_invokes, Event.isShutdownBegin]

theorem runTrigger_stacks (s : ServeState R A) (t : Trigger) :
    (runTrigger s t).1.http.preRoutines = s.http.preRoutines
      ∧ (runTrigger s t).1.http.postRoutines = s.http.postRoutines := by
  cases t with
  | serviceExit =>
      by_cases h : s.http.closing = 0 <;>
        simp [runTrigger, attemptTrigger, h]
  | signal =>
      by_cases hi : s.http.interrupted <;>
        by_cases h : s.http.closing = 0 <;>
          simp [runTrigger, signalStep, attemptTrigger, hi, h,
            CleanupHTTP.isClosed]

theorem runTriggers_stacks (s : ServeState R A) (ts : List Trigger) :
    (runTriggers s ts).1.http.preRoutines = s.http.preRoutines
      ∧ (runTriggers s ts).1.http.postRoutines = s.http.postRoutines := by
  induction ts generalizing s with
  | nil => exact ⟨rfl, rfl⟩
  | cons t ts ih =>
      have h1 := runTrigger_stacks s t
      have h2 := ih (runTrigger s t).1
      simp only [runTriggers]
      exact ⟨h2.1.trans h1.1, h2.2.trans h1.2⟩

/-- C8 counterexample: a first package-level run on the default instance
completes and leaves `closing = 1`; a second package-level `Serve` call on
the instance — even with the serving goroutine exiting and two signals
delivered — never closes its fresh `quit` channel, so it blocks forever at
`<-quit` and never drains the leftover action. -/
theorem default_instance_reuse_counterexample :
    (ServeFull dStart 5 [Trigger.serviceExit] false).map Prod.snd
        = some dAfterFirst
      ∧ pkgServe dLeftover 1 7
          [Trigger.serviceExit, Trigger.signal, Trigger.signal] false
        = none := by
  constructor
  · have h : runTriggers { http := dStart, quitCloses := 0 }
        [Trigger.serviceExit]
        = ({ http := { dStart with closing := 1 }, quitCloses := 1 }, 1) := by
      decide
    simp [ServeFull, h, serveAfterWake_eq]
    decide
  · decide

/-- C8 amended: the default instance is indeed not reset between uses — the
`closing` flag and any still-un-popped actions survive into the next call —
but a second `Serve` on a triggered instance never reuses them: no trigger
attempt can close the fresh `quit` channel, so the call blocks forever at
`<-quit` (modelled `none`), never reaching its cleanup phases, and the
leftover actions stay in the stacks untouched by the trigger attempts. -/
theorem default_instance_reuse_amended (d : CleanupHTTP R A) (server : Nat)
    (tm : Int) (ts : List Trigger) (f : Bool) (h : d.isClosed = true) :
    pkgServe d server tm ts f = none
      ∧ (runTriggers { http := { d with Server := server }, quitCloses := 0 }
          ts).1.http.preRoutines = d.preRoutines
      ∧ (runTriggers { http := { d with Server := server }, quitCloses := 0 }
          ts).1.http.postRoutines = d.postRoutines := by
  have hc : ({ http := { d with Server := server }, quitCloses := 0 } :
      ServeState R A).http.closing ≠ 0 := (isClosed_iff d).mp h
  obtain ⟨w1, w2, w3⟩ := runTriggers_closed ts hc
  obtain ⟨p1, p2⟩ :=
    runTriggers_stacks { http := { d with Server := server }, quitCloses := 0 } ts
  exact ⟨by simp [pkgServe, ServeFull, w3], p1, p2⟩

theorem default_instance_reuse_amended_witness :
    pkgServe dLeftover 1 7 [Trigger.signal, Trigger.serviceExit] false = none
      ∧ (runTriggers { http := { dLeftover with Server := 1 }, quitCloses := 0 }
          [Trigger.signal, Trigger.serviceExit]).1.http.preRoutines
          = dLeftover.preRoutines
      ∧ (runTriggers { http := { dLeftover with Server := 1 }, quitCloses := 0 }
          [Trigger.signal, Trigger.serviceExit]).1.http.postRoutines
          = dLeftover.postRoutines :=
  default_instance_reuse_amended dLeftover 1 7
    [Trigger.signal, Trigger.serviceExit] false (by decide)

/-- C9: the drain loop of `cleanup` calls `routineStack.pop` directly, so it
is not subject to the rejection rule: even on a state whose `closing` flag
is set (as it is throughout both drains of a `Serve` run), the drains still
pop and invoke every previously pushed routine, while the public
`PreCleanupPop`/`PostCleanupPop` on the same state return nothing. -/
theorem drain_bypasses_rejection (c : CleanupHTTP R A) (tm : Int) (f : Bool)
    (h : c.isClosed = true) :
    (cleanupLoop c.preRoutines).1 = c.preRoutines.routines.reverse
      ∧ (cleanupLoop c.postRoutines).1 = c.postRoutines.routines.reverse
      ∧ c.PreCleanupPop = (none, c)
      ∧ c.PostCleanupPop = (none, c)
      ∧ ∃ mid, (serveAfterWake c tm f).1
          = c.preRoutines.routines.reverse.map invokeEvent ++ mid
            ++ c.postRoutines.routines.reverse.map invokeEvent
            ++ [Event.serveReturn] := by
  refine ⟨by rw [cleanupLoop_drain], by rw [cleanupLoop_drain],
    cleanupPop_closed _ h, cleanupPop_closed _ h,
    Event.shutdownBegin (shutdownContext tm)
      :: Event.shutdownEnd f
      :: ((if f then [Event.logShutdownFailed] else [])
          ++ (if 0 < tm then [Event.ctxCancel] else [])), ?_⟩
  rw [serveAfterWake_eq]
  simp

theorem drain_bypasses_rejection_witness :
    (cleanupLoop cClosed.preRoutines).1 = cClosed.preRoutines.routines.reverse
      ∧ (cleanupLoop cClosed.postRoutines).1
          = cClosed.postRoutines.routines.reverse
      ∧ cClosed.PreCleanupPop = (none, cClosed)
      ∧ cClosed.PostCleanupPop = (none, cClosed)
      ∧ ∃ mid, (serveAfterWake cClosed 5 false).1
          = cClosed.preRoutines.routines.reverse.map invokeEvent ++ mid
            ++ cClosed.postRoutines.routines.reverse.map invokeEvent
            ++ [Event.serveReturn] :=
  drain_bypasses_rejection cClosed 5 false (by decide)

/-- C3: from a fresh gate, any nonempty serialized sequence of concurrent
trigger attempts (service-goroutine exit and signal deliveries, in any
order) has exactly one winner of the compare-and-swap of `closing` from 0
to 1, `close(quit)` executes exactly once, and any attempt that finds the
flag already set leaves the state untouched and reports no win. -/
theorem gate_single_trigger (s : ServeState R A) (ts : List Trigger)
    (h0 : s.http.closing = 0) (hi : s.http.interrupted = false)
    (hq : s.quitCloses = 0) (hne : ts ≠ []) :
    (runTriggers s ts).2 = 1
      ∧ (runTriggers s ts).1.quitCloses = 1
      ∧ (runTriggers s ts).1.http.closing = 1
      ∧ ∀ (s' : ServeState R A), s'.http.closing ≠ 0 →
          attemptTrigger s' = (s', false) := by
  cases ts with
  | nil => exact absurd rfl hne
  | cons t ts =>
      obtain ⟨w1, w2, w3⟩ := runTrigger_fresh t h0 hi
      have hcl : (runTrigger s t).1.http.closing ≠ 0 := by
        rw [w2]; exact one_ne_zero
      obtain ⟨g1, g2, g3⟩ := runTriggers_closed ts hcl
      refine ⟨?_, ?_, ?_, fun s' h' => attemptTrigger_closed h'⟩
      · simp [runTriggers, w1, g1]
      · simp [runTriggers, g3, w3, hq]
      · simp [runTriggers, g2, w2]

theorem gate_single_trigger_witness :
    (runTriggers sFresh [Trigger.serviceExit, Trigger.signal, Trigger.signal]).2 = 1
      ∧ (runTriggers sFresh [Trigger.serviceExit, Trigger.signal, Trigger.signal]).1.quitCloses = 1
      ∧ (runTriggers sFresh [Trigger.serviceExit, Trigger.signal, Trigger.signal]).1.http.closing = 1
      ∧ ∀ (s' : ServeState Nat Nat), s'.http.closing ≠ 0 →
          attemptTrigger s' = (s', false) :=
  gate_single_trigger sFresh [Trigger.serviceExit, Trigger.signal, Trigger.signal]
    rfl rfl rfl (by decide)

/-- C7: the gate is tri-state.  The transition OPEN → CLOSING is exactly the
compare-and-swap: it succeeds precisely from `closing = 0`, a repeated
attempt never succeeds again, and a trigger finding the flag set is a
no-op.  The transition CLOSING → CLOSED is made by the waiter alone: each
`Serve` run emits exactly one `serveReturn` event, and it comes after the
pre-cleanup drain, the bounded shutdown, and the post-cleanup drain. -/
theorem gate_tristate_transitions (c : CleanupHTTP R A) (tm : Int) (f : Bool)
    (s : ServeState R A) :
    (s.http.closing = 0 →
        attemptTrigger s
          = ({ http := { s.http with closing := 1 }, quitCloses := s.quitCloses + 1 }, true))
      ∧ (s.http.closing ≠ 0 → attemptTrigger s = (s, false))
      ∧ (attemptTrigger (attemptTrigger s).1).2 = false
      ∧ (serveAfterWake c tm f).1.countP Event.isServeReturn = 1
      ∧ (∃ mid, (serveAfterWake c tm f).1
          = c.preRoutines.routines.reverse.map invokeEvent
            ++ [Event.shutdownBegin (shutdownContext tm), Event.shutdownEnd f]
            ++ mid
            ++ c.postRoutines.routines.reverse.map invokeEvent
            ++ [Event.serveReturn]) := by
  refine ⟨fun h0 => attemptTrigger_open h0,
    fun h1 => attemptTrigger_closed h1, ?_, ?_, ?_⟩
  · by_cases h0 : s.http.closing = 0
    · rw [attemptTrigger_open h0, attemptTrigger_closed (by simp)]
    · rw [attemptTrigger_closed h0, attemptTrigger_closed h0]
  · rw [serveAfterWake_eq]
    by_cases hb : f = true <;> by_cases ht : 0 < tm <;>
      simp [hb, ht, List.countP_append, List.countP_cons,
        countP_isServeReturn_invokes, Event.isServeReturn,
        Event.isShutdownBegin]
  · refine ⟨(if f then [Event.logShutdownFailed] else [])
      ++ (if 0 < tm then [Event.ctxCancel] else []), ?_⟩
    rw [serveAfterWake_eq]
    simp

theorem gate_tristate_transitions_witness :
    attemptTrigger sFresh
        = ({ http := { sFresh.http with closing := 1 }, quitCloses := sFresh.quitCloses + 1 }, true)
      ∧ (serveAfterWake cClosed 5 false).1.countP Event.isServeReturn = 1 :=
  ⟨(gate_tristate_transitions cClosed 5 false sFresh).1 rfl,
    (gate_tristate_transitions cClosed 5 false sFresh).2.2.2.1⟩

/-- C10: no operation of the package ever resets `closing` to 0: starting
from any state whose flag is set, after any sequence of pushes, pops,
trigger attempts, signal deliveries and `Serve` wake phases the flag is
still set, the compare-and-swap can never succeed again, and every push
and pop on the resulting state is rejected without mutation. -/
theorem closing_monotone (s : ServeState R A) (ops : List (Op R A))
    (h : s.http.isClosed = true) :
    (applyOps s ops).http.isClosed = true
      ∧ (attemptTrigger (applyOps s ops)).2 = false
      ∧ (∀ (sel : StackSel) (r : R) (a : A),
          (applyOps s ops).http.cleanupPush sel r a = (applyOps s ops).http)
      ∧ (∀ (sel : StackSel),
          (applyOps s ops).http.cleanupPop sel = (none, (applyOps s ops).http)) := by
  have h' : (applyOps s ops).http.isClosed = true := applyOps_closed ops h
  refine ⟨h', ?_, fun sel r a => cleanupPush_closed sel r a h',
    fun sel => cleanupPop_closed sel h'⟩
  rw [attemptTrigger_closed ((isClosed_iff _).mp h')]

theorem closing_monotone_witness :
    (applyOps ⟨cClosed, 1⟩
        [Op.push StackSel.pre 5 6, Op.pop StackSel.post, Op.signal,
         Op.serviceExit, Op.serveWake 3 true]).http.isClosed = true
      ∧ (attemptTrigger (applyOps ⟨cClosed, 1⟩
          [Op.push StackSel.pre 5 6, Op.pop StackSel.post, Op.signal,
           Op.serviceExit, Op.serveWake 3 true])).2 = false
      ∧ (∀ (sel : StackSel) (r : Nat) (a : Nat),
          (applyOps ⟨cClosed, 1⟩
            [Op.push StackSel.pre 5 6, Op.pop StackSel.post, Op.signal,
             Op.serviceExit, Op.serveWake 3 true]).http.cleanupPush sel r a
            = (applyOps ⟨cClosed, 1⟩
                [Op.push StackSel.pre 5 6, Op.pop StackSel.post, Op.signal,
                 Op.serviceExit, Op.serveWake 3 true]).http)
      ∧ (∀ (sel : StackSel),
          (applyOps ⟨cClosed, 1⟩
            [Op.push StackSel.pre 5 6, Op.pop StackSel.post, Op.signal,
             Op.serviceExit, Op.serveWake 3 true]).http.cleanupPop sel
            = (none, (applyOps ⟨cClosed, 1⟩
                [Op.push StackSel.pre 5 6, Op.pop StackSel.post, Op.signal,
                 Op.serviceExit, Op.serveWake 3 true]).http)) :=
  closing_monotone ⟨cClosed, 1⟩
    [Op.push StackSel.pre 5 6, Op.pop StackSel.post, Op.signal,
     Op.serviceExit, Op.serveWake 3 true] (by decide)

end Cleanuphttp
